import Mathlib

/-!
Verification of the ticket priority-scoring and lifecycle engine of the Axis
ticket-management application (src/app.py), as a shallow embedding in Lean 4.

The embedding mirrors the Python source:
  * JSON values are the inductive type Json; Python json.loads is modelled by
    the executable recursive-descent parser jsonParse (numbers become exact
    rationals, strings character lists; the escape subset covers everything
    json.dumps emits for the data in the source).
  * Python str operations used by the source (substring test via the in
    operator, str.lower, f-string building) are modelled over List Char.
  * The OpenRouter call (call_ai) is parametrised by an AIConfig: mock mode
    reproduces the keyword-sniffed canned responses of the source verbatim;
    remote mode takes an oracle for the network response, with none standing
    for a raised requests exception (the source catches it and returns the
    two-character string of an empty JSON object).
  * Tickets are a structure with exactly the fields create_ticket writes;
    fields the source stores as raw JSON values (priority_score,
    calculated_priority, validation, priority_analysis) are kept as Json.
  * Streamlit button handlers that mutate tickets (Approve / Start /
    Complete / Delete / Sync) become pure functions; the wall clock is an
    explicit String argument holding the ISO-8601 timestamp.
-/

/-! ## Python string primitives -/

/-- Python substring test: needle occurs contiguously in the haystack
(the Python expression needle in haystack). -/
def containsSub (needle : List Char) : List Char → Bool
  | [] => needle.isEmpty
  | c :: t => needle.isPrefixOf (c :: t) || containsSub needle t

/-- Python str.lower on the character list of a string (ASCII case fold,
which is what every sniffed keyword in the source exercises). -/
def lowerData (s : String) : List Char := s.data.map Char.toLower

/-! ## JSON values -/

/-- JSON values as parsed by Python json.loads; numbers are exact rationals,
strings and object keys are character lists. -/
inductive Json where
  | null
  | bool (b : Bool)
  | num (q : Rat)
  | str (s : List Char)
  | arr (elems : List Json)
  | obj (fields : List (List Char × Json))

/-- Association lookup used to model Python dict.get on parsed JSON objects. -/
def lookupKV (k : List Char) : List (List Char × Json) → Option Json
  | [] => none
  | (k', v) :: t => if k' = k then some v else lookupKV k t

/-- Python d.get(k) on a parsed JSON value: a lookup when the value is an
object, absent otherwise. -/
def Json.get : Json → List Char → Option Json
  | Json.obj kvs, k => lookupKV k kvs
  | _, _ => none

/-! ## JSON parser (model of json.loads) -/

/-- Skip JSON whitespace. -/
def skipWs : List Char → List Char
  | [] => []
  | c :: cs => if c = ' ' || c = '\n' || c = '\t' || c = '\r' then skipWs cs else c :: cs

/-- Parse the remainder of a JSON string literal (opening quote consumed),
accumulating characters; handles the escapes json.dumps emits. -/
def parseStringAux : List Char → List Char → Option (List Char × List Char)
  | _, [] => none
  | acc, '"' :: cs => some (acc.reverse, cs)
  | _, ['\\'] => none
  | acc, '\\' :: e :: cs' =>
    if e = 'n' then parseStringAux ('\n' :: acc) cs'
    else if e = 't' then parseStringAux ('\t' :: acc) cs'
    else if e = 'r' then parseStringAux ('\r' :: acc) cs'
    else if e = '"' then parseStringAux ('"' :: acc) cs'
    else if e = '\\' then parseStringAux ('\\' :: acc) cs'
    else if e = '/' then parseStringAux ('/' :: acc) cs'
    else none
  | acc, c :: cs => parseStringAux (c :: acc) cs

/-- Longest leading run of ASCII digits, and the rest. -/
def takeDigits : List Char → List Char × List Char
  | [] => ([], [])
  | c :: cs =>
    if c.isDigit then
      let (d, r) := takeDigits cs
      (c :: d, r)
    else ([], c :: cs)

/-- Numeric value of a digit run. -/
def natOfDigits (ds : List Char) : Nat :=
  ds.foldl (fun a c => a * 10 + (c.toNat - 48)) 0

/-- Parse a JSON number to an exact rational. The digits are accumulated as a
mantissa and a power-of-ten scale so that the rational is built by a single
mkRat, which evaluates by kernel reduction. -/
def parseNumber (cs : List Char) : Option (Rat × List Char) :=
  let (neg, cs1) : Bool × List Char :=
    match cs with
    | '-' :: t => (true, t)
    | _ => (false, cs)
  let (ip, cs2) := takeDigits cs1
  if ip.isEmpty then none
  else
    let withFrac : Option ((List Char × Nat) × List Char) :=
      match cs2 with
      | '.' :: t =>
        let (fd, r) := takeDigits t
        if fd.isEmpty then none else some ((ip ++ fd, fd.length), r)
      | _ => some ((ip, 0), cs2)
    match withFrac with
    | none => none
    | some ((ds, fracLen), cs3) =>
      let withExp : Option (Int × List Char) :=
        match cs3 with
        | 'e' :: t | 'E' :: t =>
          let (esign, t1) : Bool × List Char :=
            match t with
            | '-' :: u => (true, u)
            | '+' :: u => (false, u)
            | _ => (false, t)
          let (ed, r) := takeDigits t1
          if ed.isEmpty then none
          else some ((if esign then -(natOfDigits ed : Int) else (natOfDigits ed : Int)), r)
        | _ => some (0, cs3)
      match withExp with
      | none => none
      | some (ex, cs4) =>
        let m : Int := if neg then -(natOfDigits ds : Int) else (natOfDigits ds : Int)
        let e10 : Int := (fracLen : Int) - ex
        let q : Rat :=
          if 0 ≤ e10 then mkRat m ((10 : Nat) ^ e10.toNat)
          else mkRat (m * ((10 : Int) ^ (-e10).toNat)) 1
        some (q, cs4)

mutual

/-- Parse one JSON value (fuel-indexed recursive descent). -/
def parseVal : Nat → List Char → Option (Json × List Char)
  | 0, _ => none
  | f + 1, cs =>
    match skipWs cs with
    | [] => none
    | c :: rest =>
      if c = '"' then (parseStringAux [] rest).map (fun p => (Json.str p.1, p.2))
      else if c = '\x7b' then
        match skipWs rest with
        | '\x7d' :: r2 => some (Json.obj [], r2)
        | r => (parseMembers f r).map (fun p => (Json.obj p.1, p.2))
      else if c = '[' then
        match skipWs rest with
        | ']' :: r2 => some (Json.arr [], r2)
        | r => (parseElems f r).map (fun p => (Json.arr p.1, p.2))
      else if c = 't' then
        match rest with
        | 'r' :: 'u' :: 'e' :: r => some (Json.bool true, r)
        | _ => none
      else if c = 'f' then
        match rest with
        | 'a' :: 'l' :: 's' :: 'e' :: r => some (Json.bool false, r)
        | _ => none
      else if c = 'n' then
        match rest with
        | 'u' :: 'l' :: 'l' :: r => some (Json.null, r)
        | _ => none
      else (parseNumber (c :: rest)).map (fun p => (Json.num p.1, p.2))

/-- Parse the members of a JSON object after its opening brace. -/
def parseMembers : Nat → List Char → Option (List (List Char × Json) × List Char)
  | 0, _ => none
  | f + 1, cs =>
    match skipWs cs with
    | '"' :: rest =>
      match parseStringAux [] rest with
      | none => none
      | some (k, r1) =>
        match skipWs r1 with
        | ':' :: r2 =>
          match parseVal f r2 with
          | none => none
          | some (v, r3) =>
            match skipWs r3 with
            | ',' :: r4 => (parseMembers f r4).map (fun p => ((k, v) :: p.1, p.2))
            | '\x7d' :: r4 => some ([(k, v)], r4)
            | _ => none
        | _ => none
    | _ => none

/-- Parse the elements of a JSON array after its opening bracket. -/
def parseElems : Nat → List Char → Option (List Json × List Char)
  | 0, _ => none
  | f + 1, cs =>
    match parseVal f cs with
    | none => none
    | some (v, r1) =>
      match skipWs r1 with
      | ',' :: r2 => (parseElems f r2).map (fun p => (v :: p.1, p.2))
      | ']' :: r2 => some ([v], r2)
      | _ => none

end

/-- Model of Python json.loads on a character list: a single JSON value,
optionally surrounded by whitespace, and nothing else. -/
def jsonParse (cs : List Char) : Option Json :=
  match parseVal (cs.length + 1) cs with
  | some (v, rest) => if (skipWs rest).isEmpty then some v else none
  | none => none

/-- First index of a character (Python str.find, none for -1). -/
def firstIdxOf (c : Char) : List Char → Option Nat
  | [] => none
  | x :: t => if x = c then some 0 else (firstIdxOf c t).map (· + 1)

/-- Last index of a character (Python str.rfind, none for -1). -/
def lastIdxOf (c : Char) (l : List Char) : Option Nat :=
  (firstIdxOf c l.reverse).map (fun i => l.length - 1 - i)

/-- The JSON-extraction step shared by calculate_priority_score and
validate_and_enhance_ticket in src/app.py: if the response contains an
opening brace, slice from the first opening brace to the last closing brace
(Python s[find:rfind+1], an empty slice when rfind is -1 or before find) and
json.loads the slice; any failure is none (the source catches the exception
and falls back to a default judgement). -/
def extractJson (response : String) : Option Json :=
  let l := response.data
  match firstIdxOf '\x7b' l with
  | none => none
  | some a =>
    let b1 : Nat :=
      match lastIdxOf '\x7d' l with
      | some b => b + 1
      | none => 0
    jsonParse ((l.take b1).drop a)

/-- The judgement a response yields: the extracted JSON object, or the given
default when extraction fails. -/
def judgementOf (response : String) (default : Json) : Json :=
  (extractJson response).getD default


/-! ## AI advisory client (call_ai in src/app.py) -/

/-- Configuration of the advisory client: mock mode (no API key) or a remote
model; the oracle gives the response content of the HTTP call, with none for
a raised exception (network failure, bad status, malformed payload). -/
inductive AIConfig where
  | mock
  | remote (oracle : String → String → Option String)

/-- The canned mock response for prompts sniffed as priority-scoring
requests, exactly the json.dumps output of the first template in call_ai. -/
def mockPriorityResponse : String :=
  "\x7b\"calculated_priority\": \"High\", \"priority_score\": 8.5, \"reasoning\": \"Multiple servers affected with potential safety concerns. Impact scope is significant.\", \"factors\": \x7b\"impact_scope\": \"rack\", \"service_impact\": \"partial_outage\", \"urgency\": \"within_24h\", \"safety\": \"moderate\"\x7d, \"recommended_actions\": [\"Immediate assessment of affected rack\", \"Check power distribution and cooling\", \"Verify network connectivity\", \"Schedule maintenance window if needed\"]\x7d"

/-- The canned mock response for prompts sniffed as validation/completeness
requests, exactly the json.dumps output of the second template in call_ai. -/
def mockValidationResponse : String :=
  "\x7b\"is_complete\": false, \"completeness_score\": 0.65, \"missing_fields\": [\"root_cause_analysis\", \"estimated_time\", \"required_parts\"], \"suggestions\": \x7b\"summary\": \"Add specific server IDs and error codes\", \"description\": \"Include recent logs, error patterns, and troubleshooting steps already attempted\", \"priority\": \"Consider impact on critical services\"\x7d, \"auto_enhanced\": \x7b\"summary\": \"GPU Server Cluster Offline - Rack 3B-04 - Thermal Event\", \"description\": \"Multiple GPU servers in rack 3B-04 have gone offline. Initial assessment suggests cooling system failure. Requires immediate investigation to prevent hardware damage. Affected: srv-gpu-301 through srv-gpu-308.\", \"estimated_duration\": \"2-4 hours\", \"required_skills\": [\"thermal management\", \"GPU hardware\", \"HVAC systems\"]\x7d\x7d"

/-- The canned mock response for all other prompts, exactly the json.dumps
output of the third template in call_ai. -/
def mockGenericResponse : String :=
  "\x7b\"summary\": \"Server hardware issue requiring attention\", \"priority\": \"Medium\", \"description\": \"Issue detected requiring technical investigation and resolution.\", \"steps\": [\"Verify server status in monitoring system\", \"Check physical connections and indicators\", \"Review system logs for errors\", \"Test hardware components\", \"Document findings and resolution\"], \"confidence\": 0.75\x7d"

/-- Model of call_ai: in mock mode the response is selected by keyword
sniffing of the lower-cased user prompt; in remote mode a raised exception or
empty content becomes the two-character empty-object string (the source
returns content or the empty-object string literal). -/
def call_ai (cfg : AIConfig) (systemPrompt userPrompt : String) : String :=
  match cfg with
  | AIConfig.mock =>
    if containsSub "calculate priority score".data (lowerData userPrompt) then
      mockPriorityResponse
    else if containsSub "validate".data (lowerData userPrompt)
        || containsSub "complete".data (lowerData userPrompt) then
      mockValidationResponse
    else mockGenericResponse
  | AIConfig.remote oracle =>
    match oracle systemPrompt userPrompt with
    | none => "\x7b\x7d"
    | some content => if content = "" then "\x7b\x7d" else content

/-- System prompt of calculate_priority_score, verbatim. -/
def priSystemPrompt : String :=
  "You are an expert data center operations AI. Analyze tickets and calculate objective priority scores.\n    \nConsider:\n1. Impact Scope: How many systems/services affected?\n2. Service Impact: Is service degraded or completely down?\n3. Urgency: Is this causing active issues or preventive?\n4. Safety: Any safety concerns for personnel or equipment?\n\nReturn JSON with: calculated_priority, priority_score (0-10), reasoning, factors, recommended_actions"

/-- User prompt of calculate_priority_score, verbatim f-string with the
ticket fields interpolated. -/
def priUserPrompt (summary description user_priority rack server : String) : String :=
  "Analyze this ticket and calculate objective priority:\n\nSummary: " ++ summary
    ++ "\nDescription: " ++ description
    ++ "\nUser Priority: " ++ user_priority
    ++ "\nLocation: " ++ rack ++ " / " ++ server
    ++ "\n\nCalculate the actual priority score based on objective factors."

/-- System prompt of validate_and_enhance_ticket, verbatim. -/
def valSystemPrompt : String :=
  "You are an expert data center ticket quality analyst. Evaluate tickets for completeness and suggest enhancements.\n\nCheck for:\n- Clear, specific problem description\n- Actionable information\n- Relevant technical details\n- Proper categorization\n\nReturn JSON with: is_complete, completeness_score, missing_fields, suggestions, auto_enhanced"

/-- User prompt of validate_and_enhance_ticket, verbatim f-string. -/
def valUserPrompt (summary description server rack priority : String) : String :=
  "Validate and enhance this ticket:\n\nSummary: " ++ summary
    ++ "\nDescription: " ++ description
    ++ "\nServer: " ++ server
    ++ "\nRack: " ++ rack
    ++ "\nPriority: " ++ priority
    ++ "\n\nProvide specific suggestions for improvement."

/-- The fallback priority judgement of calculate_priority_score. -/
def defaultPriorityJudgement (user_priority : String) : Json :=
  Json.obj [("calculated_priority".data, Json.str user_priority.data),
            ("priority_score".data, Json.num 5),
            ("reasoning".data, Json.str "Unable to calculate detailed score".data),
            ("factors".data, Json.obj []),
            ("recommended_actions".data, Json.arr [])]

/-- The fallback completeness judgement of validate_and_enhance_ticket. -/
def defaultValidationJudgement : Json :=
  Json.obj [("is_complete".data, Json.bool true),
            ("completeness_score".data, Json.num (mkRat 7 10)),
            ("missing_fields".data, Json.arr []),
            ("suggestions".data, Json.obj []),
            ("auto_enhanced".data, Json.obj [])]

/-- calculate_priority_score: build the prompts from the ticket fields, call
the advisory client, extract the JSON judgement, fall back to the default. -/
def calculate_priority_score (cfg : AIConfig)
    (summary description user_priority rack server : String) : Json :=
  judgementOf
    (call_ai cfg priSystemPrompt (priUserPrompt summary description user_priority rack server))
    (defaultPriorityJudgement user_priority)

/-- validate_and_enhance_ticket: same shape with the validation prompts and
the completeness default. -/
def validate_and_enhance_ticket (cfg : AIConfig)
    (summary description server rack priority : String) : Json :=
  judgementOf
    (call_ai cfg valSystemPrompt (valUserPrompt summary description server rack priority))
    defaultValidationJudgement

/-! ## Ticket creation (create_ticket in src/app.py) -/

/-- The ticket_data dictionary passed to create_ticket; both call sites
(manual create tab and CSV import) populate exactly these five keys. -/
structure TicketInput where
  summary : String
  description : String
  server : String
  rack : String
  priority : String

/-- A ticket as created by create_ticket. Fields the source stores as raw
JSON values from the advisory judgement stay Json; keys absent until a later
transition (needs_priority_review, started_at, completed_at, jira_key,
jira_synced_at) are Option, none for absent. -/
structure Ticket where
  id : String
  created_at : String
  created_by : String
  status : String
  user_priority : String
  summary : String
  description : String
  server : String
  rack : String
  priority : String
  validation : Json
  priority_analysis : Json
  calculated_priority : Json
  priority_score : Json
  needs_priority_review : Option Bool
  started_at : Option String
  completed_at : Option String
  jira_key : Option String
  jira_synced_at : Option String

/-- Python inequality between a parsed JSON value and a str: strings compare
by content, every other JSON shape is unequal to a str. -/
def pyNeqStr (v : Json) (s : String) : Bool :=
  match v with
  | Json.str t => decide (t ≠ s.data)
  | _ => true

/-- create_ticket: assign provenance, run the completeness judgement then
the priority judgement, extract calculated_priority (default: the declared
user priority) and priority_score (default 5.0), and upgrade Draft to
AI Review with needs_priority_review set exactly when the calculated
priority differs from the user priority. The id and timestamp
(uuid4/datetime.now in the source) are explicit arguments. -/
def create_ticket (cfg : AIConfig) (username : String) (input : TicketInput)
    (idv created_at : String) : Ticket :=
  let user_priority := input.priority
  let validation :=
    validate_and_enhance_ticket cfg input.summary input.description input.server input.rack
      input.priority
  let priority_analysis :=
    calculate_priority_score cfg input.summary input.description user_priority input.rack
      input.server
  let calculated :=
    (priority_analysis.get "calculated_priority".data).getD (Json.str user_priority.data)
  let score := (priority_analysis.get "priority_score".data).getD (Json.num 5)
  let review := pyNeqStr calculated user_priority
  { id := idv, created_at := created_at, created_by := username,
    status := if review then "AI Review" else "Draft",
    user_priority := user_priority,
    summary := input.summary, description := input.description,
    server := input.server, rack := input.rack, priority := input.priority,
    validation := validation, priority_analysis := priority_analysis,
    calculated_priority := calculated, priority_score := score,
    needs_priority_review := if review then some true else none,
    started_at := none, completed_at := none, jira_key := none, jira_synced_at := none }

/-! ## Parsed mock templates -/

/-- The first mock template as a JSON value (what json.loads recovers from
mockPriorityResponse). -/
def mockPriorityJson : Json :=
  Json.obj [
    ("calculated_priority".data, Json.str "High".data),
    ("priority_score".data, Json.num (mkRat 85 10)),
    ("reasoning".data,
      Json.str "Multiple servers affected with potential safety concerns. Impact scope is significant.".data),
    ("factors".data, Json.obj [
      ("impact_scope".data, Json.str "rack".data),
      ("service_impact".data, Json.str "partial_outage".data),
      ("urgency".data, Json.str "within_24h".data),
      ("safety".data, Json.str "moderate".data)]),
    ("recommended_actions".data, Json.arr [
      Json.str "Immediate assessment of affected rack".data,
      Json.str "Check power distribution and cooling".data,
      Json.str "Verify network connectivity".data,
      Json.str "Schedule maintenance window if needed".data])]

/-- The second mock template as a JSON value. -/
def mockValidationJson : Json :=
  Json.obj [
    ("is_complete".data, Json.bool false),
    ("completeness_score".data, Json.num (mkRat 65 100)),
    ("missing_fields".data, Json.arr [
      Json.str "root_cause_analysis".data,
      Json.str "estimated_time".data,
      Json.str "required_parts".data]),
    ("suggestions".data, Json.obj [
      ("summary".data, Json.str "Add specific server IDs and error codes".data),
      ("description".data,
        Json.str "Include recent logs, error patterns, and troubleshooting steps already attempted".data),
      ("priority".data, Json.str "Consider impact on critical services".data)]),
    ("auto_enhanced".data, Json.obj [
      ("summary".data, Json.str "GPU Server Cluster Offline - Rack 3B-04 - Thermal Event".data),
      ("description".data,
        Json.str "Multiple GPU servers in rack 3B-04 have gone offline. Initial assessment suggests cooling system failure. Requires immediate investigation to prevent hardware damage. Affected: srv-gpu-301 through srv-gpu-308.".data),
      ("estimated_duration".data, Json.str "2-4 hours".data),
      ("required_skills".data, Json.arr [
        Json.str "thermal management".data,
        Json.str "GPU hardware".data,
        Json.str "HVAC systems".data])])]

/-- The third mock template as a JSON value. -/
def mockGenericJson : Json :=
  Json.obj [
    ("summary".data, Json.str "Server hardware issue requiring attention".data),
    ("priority".data, Json.str "Medium".data),
    ("description".data, Json.str "Issue detected requiring technical investigation and resolution.".data),
    ("steps".data, Json.arr [
      Json.str "Verify server status in monitoring system".data,
      Json.str "Check physical connections and indicators".data,
      Json.str "Review system logs for errors".data,
      Json.str "Test hardware components".data,
      Json.str "Document findings and resolution".data]),
    ("confidence".data, Json.num (mkRat 75 100))]


/-! ## Lifecycle transitions (display_ticket_card button handlers) -/

/-- The three status-changing actions offered by the ticket card. -/
inductive TicketAction where
  | approve
  | start
  | complete

/-- The button handlers of display_ticket_card: each action is offered only
in the listed source states, and none is some mutated ticket. Approve sets
status Approved and clears needs_priority_review; Start sets In Progress and
started_at; Complete sets Completed and completed_at. The timestamp argument
stands for datetime.now at the moment of the click. -/
def applyAction (t : Ticket) (a : TicketAction) (now : String) : Option Ticket :=
  match a with
  | TicketAction.approve =>
    if t.status = "Draft" || t.status = "AI Review" then
      some { t with status := "Approved", needs_priority_review := some false }
    else none
  | TicketAction.start =>
    if t.status = "Approved" then
      some { t with status := "In Progress", started_at := some now }
    else none
  | TicketAction.complete =>
    if t.status = "In Progress" then
      some { t with status := "Completed", completed_at := some now }
    else none

/-- Position of a status along the lifecycle chain; Draft and AI Review are
both pre-approval states. -/
def statusRank (s : String) : Nat :=
  if s = "Draft" then 1
  else if s = "AI Review" then 1
  else if s = "Approved" then 2
  else if s = "In Progress" then 3
  else if s = "Completed" then 4
  else 0

/-! ## Jira sync (sync_ticket_to_jira in src/app.py) -/

/-- sync_ticket_to_jira: when Jira is unconfigured the sync reports failure
and the ticket is untouched; otherwise issueKey is the result of
create_jira_issue (none both for a caught exception and for a missing key in
the HTTP response; the source catches every exception and returns None). A
truthy key is written to jira_key together with jira_synced_at; anything
else reports failure with the ticket untouched. -/
def sync_ticket_to_jira (configured : Bool) (issueKey : Option String) (t : Ticket)
    (now : String) : Bool × Ticket :=
  if configured = false then (false, t)
  else
    match issueKey with
    | some k =>
      if k = "" then (false, t)
      else (true, { t with jira_key := some k, jira_synced_at := some now })
    | none => (false, t)

/-! ## Deletion and listing -/

/-- The Delete button handler: keep every ticket whose id differs. -/
def deleteTicket (tickets : List Ticket) (tid : String) : List Ticket :=
  tickets.filter (fun t => t.id ≠ tid)

/-- The priority shown and filtered on: the stored calculated_priority
(always present on tickets built by create_ticket), compared to the
filter string the way Python compares a parsed JSON value to a str. -/
def priorityMatches (t : Ticket) (pf : String) : Bool :=
  match t.calculated_priority with
  | Json.str s => s = pf.data
  | _ => false

/-- Numeric sort key of the Tickets tab: x.get("priority_score", 0). Shapes
other than a number are ordered as 0 here; on such data the source's list
sort would raise a TypeError on the cross-type comparison, an ordering
question irrelevant to the membership properties proved below. -/
def scoreNum (t : Ticket) : Rat :=
  match t.priority_score with
  | Json.num q => q
  | _ => 0

/-- Insert into a sorted list (stable insertion sort, used as the model of
list.sort with a key; only membership is relied on). -/
def insertSorted (le : Ticket → Ticket → Bool) (x : Ticket) : List Ticket → List Ticket
  | [] => [x]
  | y :: t => if le x y then x :: y :: t else y :: insertSorted le x t

/-- Sort a ticket list by the given comparison. -/
def sortTickets (le : Ticket → Ticket → Bool) : List Ticket → List Ticket
  | [] => []
  | x :: t => insertSorted le x (sortTickets le t)

/-- The Tickets tab pipeline: status filter, priority filter, then one of the
four sort orders. -/
def listTickets (tickets : List Ticket) (statusFilter priorityFilter sortKey : String) :
    List Ticket :=
  let l1 := if statusFilter = "All" then tickets
    else tickets.filter (fun t => t.status = statusFilter)
  let l2 := if priorityFilter = "All" then l1
    else l1.filter (fun t => priorityMatches t priorityFilter)
  if sortKey = "Priority Score (High→Low)" then
    sortTickets (fun a b => decide (scoreNum b ≤ scoreNum a)) l2
  else if sortKey = "Created (Newest)" then
    sortTickets (fun a b => decide (b.created_at ≤ a.created_at)) l2
  else if sortKey = "Created (Oldest)" then
    sortTickets (fun a b => decide (a.created_at ≤ b.created_at)) l2
  else sortTickets (fun a b => decide (a.status ≤ b.status)) l2

/-! ## Read-path coercions (show_ticket_detail / display_ticket_card) -/

/-- Strip the blanks Python float(str) ignores. -/
def stripBlanks (s : List Char) : List Char :=
  (skipWs s).reverse.dropWhile (fun c => c = ' ' || c = '\n' || c = '\t' || c = '\r')
    |>.reverse

/-- Python float(str) on the JSON-number-shaped literals (sign, digits,
optional fraction and exponent); other strings raise, modelled as none. -/
def pyFloatOfStr (s : List Char) : Option Rat :=
  let t := stripBlanks s
  let t1 := match t with
    | '+' :: u => u
    | _ => t
  match parseNumber t1 with
  | some (q, rest) => if rest.isEmpty then some q else none
  | none => none

/-- Python float(x) on a parsed JSON value: numbers pass through, booleans
are 0/1 (bool is an int subclass), numeric strings parse, and None, lists
and dicts raise (none). -/
def pyFloat : Json → Option Rat
  | Json.num q => some q
  | Json.bool b => some (if b then 1 else 0)
  | Json.str s => pyFloatOfStr s
  | _ => none

/-- The priority-score read path of show_ticket_detail (and, identically,
display_ticket_card): ticket.get("priority_score", 0), dict coerced to 0,
then float; none models a raised exception. The ticket is the field list of
a persisted JSON object. -/
def readScore (kvs : List (List Char × Json)) : Option Rat :=
  let score := (lookupKV "priority_score".data kvs).getD (Json.num 0)
  let score2 := match score with
    | Json.obj _ => Json.num 0
    | v => v
  pyFloat score2

/-- The completeness read path of show_ticket_detail:
validation.get("completeness_score", 0), dict coerced to 0.7, float, then
clamped into the unit interval; a non-dict validation value makes
validation.get itself raise (none). -/
def readCompleteness (kvs : List (List Char × Json)) : Option Rat :=
  match (lookupKV "validation".data kvs).getD (Json.obj []) with
  | Json.obj vkvs =>
    let c := (lookupKV "completeness_score".data vkvs).getD (Json.num 0)
    let c2 := match c with
      | Json.obj _ => Json.num (mkRat 7 10)
      | v => v
    (pyFloat c2).map (fun q => max 0 (min 1 q))
  | _ => none

/-! ## Deterministic priority model (PRIORITY_WEIGHTS) -/

/-- Levels of the impact_scope factor, in the order of the weight table. -/
inductive ImpactScope where
  | singleServer
  | rackLevel
  | rowLevel
  | datacenter

/-- PRIORITY_WEIGHTS["impact_scope"]. -/
def ImpactScope.weight : ImpactScope → Nat
  | ImpactScope.singleServer => 1
  | ImpactScope.rackLevel => 3
  | ImpactScope.rowLevel => 5
  | ImpactScope.datacenter => 10

/-- Levels of the service_impact factor. -/
inductive ServiceImpact where
  | noImpact
  | degraded
  | outagePart
  | outageFull

/-- PRIORITY_WEIGHTS["service_impact"]. -/
def ServiceImpact.weight : ServiceImpact → Nat
  | ServiceImpact.noImpact => 0
  | ServiceImpact.degraded => 2
  | ServiceImpact.outagePart => 5
  | ServiceImpact.outageFull => 10

/-- Levels of the urgency factor. -/
inductive Urgency where
  | scheduled
  | nextMaintenance
  | within24h
  | immediate

/-- PRIORITY_WEIGHTS["urgency"]. -/
def Urgency.weight : Urgency → Nat
  | Urgency.scheduled => 1
  | Urgency.nextMaintenance => 2
  | Urgency.within24h => 5
  | Urgency.immediate => 10

/-- Levels of the safety factor. -/
inductive SafetyLevel where
  | noIssue
  | minor
  | moderate
  | critical

/-- PRIORITY_WEIGHTS["safety"]. -/
def SafetyLevel.weight : SafetyLevel → Nat
  | SafetyLevel.noIssue => 0
  | SafetyLevel.minor => 3
  | SafetyLevel.moderate => 7
  | SafetyLevel.critical => 10

/-- Modelled from the spec: the source defines PRIORITY_WEIGHTS but never a
combination function (the weighted model is never invoked on the creation
path). Section 4.1 of the spec leaves the combination open, naming the
normalized sum first; the combined score is modelled as the sum of the four
factor weights, the normalization constant being irrelevant to
monotonicity. -/
def priorityModelScore (i : ImpactScope) (s : ServiceImpact) (u : Urgency)
    (f : SafetyLevel) : Nat :=
  i.weight + s.weight + u.weight + f.weight

/-! ## Creation entry points (main in src/app.py) -/

/-- Result of one creation request: the created ticket, if any, and how many
advisory-client calls were made on the way. -/
structure CreationOutcome where
  ticket : Option Ticket
  advisoryCalls : Nat

/-- The manual Create Ticket tab: empty summary, description, server or rack
is rejected with an error before create_ticket (and hence before any
advisory call); otherwise create_ticket runs, making its two advisory calls
(validation, then priority). -/
def manual_create_flow (cfg : AIConfig) (username : String) (input : TicketInput)
    (idv ts : String) : CreationOutcome :=
  if input.summary = "" || input.description = "" || input.server = "" || input.rack = "" then
    { ticket := none, advisoryCalls := 0 }
  else
    { ticket := some (create_ticket cfg username input idv ts), advisoryCalls := 2 }

/-- One CSV row of the bulk-import tab; none stands for a missing column. -/
structure CsvRow where
  server : Option String
  rack : Option String
  issue : Option String
  summary : Option String
  description : Option String
  priority : Option String

/-- The ticket_data built for a CSV row: every missing value is defaulted
(row.get in the source), never rejected. -/
def csvRowInput (r : CsvRow) : TicketInput :=
  { server := r.server.getD "unknown",
    rack := r.rack.getD "unknown",
    summary := r.issue.getD (r.summary.getD "Imported ticket"),
    description := r.description.getD "",
    priority := r.priority.getD "Medium" }

/-- The CSV import loop body: create_ticket runs unconditionally on the
defaulted fields, with its two advisory calls. -/
def csv_import_row_flow (cfg : AIConfig) (username : String) (r : CsvRow)
    (idv ts : String) : CreationOutcome :=
  { ticket := some (create_ticket cfg username (csvRowInput r) idv ts), advisoryCalls := 2 }

/-- Bounded check: no nonempty proper prefix of the needle is a suffix of
the (concrete) segment. -/
def noTakeSuffix (n a : List Char) : Bool :=
  (List.range n.length).all (fun k => decide (k = 0) || !((n.take k).isSuffixOf a))

/-- Bounded check: no nonempty proper tail of the needle is a prefix of the
(concrete) final segment. -/
def noDropPre (n b : List Char) : Bool :=
  (List.range n.length).all (fun k => decide (k = 0) || !((n.drop k).isPrefixOf b))

/-- Bounded check: no nonempty proper tail of the needle agrees with the
(concrete) segment on their common prefix length, so the tail cannot be a
prefix of the segment followed by anything. -/
def noDropMatch (n c : List Char) : Bool :=
  (List.range n.length).all (fun k => decide (k = 0) ||
    !((n.drop k).take (min (n.length - k) c.length) == c.take (min (n.length - k) c.length)))

/-- Lower-cased fixed segment of the priority prompt before the summary. -/
def c10f0 : List Char :=
  lowerData "Analyze this ticket and calculate objective priority:\n\nSummary: "

/-- Lower-cased fixed segment between summary and description. -/
def c10f1 : List Char := lowerData "\nDescription: "

/-- Lower-cased fixed segment between description and user priority. -/
def c10f2 : List Char := lowerData "\nUser Priority: "

/-- Lower-cased fixed segment between user priority and rack. -/
def c10f3 : List Char := lowerData "\nLocation: "

/-- Lower-cased fixed segment between rack and server. -/
def c10f4 : List Char := lowerData " / "

/-- Lower-cased fixed tail of the priority prompt. -/
def c10f5 : List Char :=
  lowerData "\n\nCalculate the actual priority score based on objective factors."

/-! ## Helper lemmas -/

set_option maxRecDepth 40000 in
theorem extract_mockPriority : extractJson mockPriorityResponse = some mockPriorityJson := rfl

set_option maxRecDepth 40000 in
theorem extract_mockValidation : extractJson mockValidationResponse = some mockValidationJson := rfl

set_option maxRecDepth 40000 in
theorem extract_mockGeneric : extractJson mockGenericResponse = some mockGenericJson := rfl

theorem extract_emptyObj : extractJson "\x7b\x7d" = some (Json.obj []) := rfl


theorem pyNeqStr_iff (v : Json) (s : String) : pyNeqStr v s = true ↔ v ≠ Json.str s.data := by
  cases v <;> simp [pyNeqStr]

theorem mem_insertSorted (le : Ticket → Ticket → Bool) (x y : Ticket) (l : List Ticket) :
    y ∈ insertSorted le x l ↔ y = x ∨ y ∈ l := by
  induction l with
  | nil => simp [insertSorted]
  | cons z t ih =>
    by_cases h : le x z = true
    · simp [insertSorted, h]
    · simp only [insertSorted, h, Bool.false_eq_true, if_false, List.mem_cons, ih]
      tauto

theorem mem_sortTickets (le : Ticket → Ticket → Bool) (x : Ticket) (l : List Ticket) :
    x ∈ sortTickets le l ↔ x ∈ l := by
  induction l with
  | nil => simp [sortTickets]
  | cons z t ih => simp [sortTickets, mem_insertSorted, ih]

/-- Claim C1: create_ticket yields status AI Review together with
needs_priority_review set (read as a Python truthy value; the key is absent,
hence falsy, when not set) exactly when the extracted calculated_priority
differs from the declared user_priority; when they agree the ticket stays
Draft with needs_priority_review unset. -/
theorem C1_create_status_review (cfg : AIConfig) (username : String) (input : TicketInput)
    (idv ts : String) :
    (((create_ticket cfg username input idv ts).status = "AI Review" ∧
        ((create_ticket cfg username input idv ts).needs_priority_review.getD false) = true) ↔
      (create_ticket cfg username input idv ts).calculated_priority ≠
        Json.str (create_ticket cfg username input idv ts).user_priority.data) ∧
    ((create_ticket cfg username input idv ts).calculated_priority =
        Json.str (create_ticket cfg username input idv ts).user_priority.data →
      (create_ticket cfg username input idv ts).status = "Draft" ∧
        ((create_ticket cfg username input idv ts).needs_priority_review.getD false) = false) := by
  have hrev := pyNeqStr_iff
    (((calculate_priority_score cfg input.summary input.description input.priority input.rack
        input.server).get "calculated_priority".data).getD (Json.str input.priority.data))
    input.priority
  by_cases h : pyNeqStr
      (((calculate_priority_score cfg input.summary input.description input.priority input.rack
          input.server).get "calculated_priority".data).getD (Json.str input.priority.data))
      input.priority = true
  · simp [create_ticket, h, hrev.mp h]
  · have hne := hrev.not.mp (by simp [h])
    simp only [not_not] at hne
    simp [create_ticket, h, hne, pyNeqStr]

set_option maxRecDepth 100000 in
/-- Witness for C1 at a concrete input: in mock mode with clean free text,
the calculated priority equals the user priority and the created ticket is a
Draft with needs_priority_review unset. -/
theorem C1_create_status_review_witness :
    (create_ticket AIConfig.mock "tech1"
        { summary := "fan failed", description := "loud noise", server := "srv-1",
          rack := "2A", priority := "Medium" } "id1" "t1").calculated_priority =
      Json.str (create_ticket AIConfig.mock "tech1"
        { summary := "fan failed", description := "loud noise", server := "srv-1",
          rack := "2A", priority := "Medium" } "id1" "t1").user_priority.data ∧
    (create_ticket AIConfig.mock "tech1"
        { summary := "fan failed", description := "loud noise", server := "srv-1",
          rack := "2A", priority := "Medium" } "id1" "t1").status = "Draft" := by
  have h := C1_create_status_review AIConfig.mock "tech1"
    { summary := "fan failed", description := "loud noise", server := "srv-1",
      rack := "2A", priority := "Medium" } "id1" "t1"
  have hc : (create_ticket AIConfig.mock "tech1"
      { summary := "fan failed", description := "loud noise", server := "srv-1",
        rack := "2A", priority := "Medium" } "id1" "t1").calculated_priority =
      Json.str (create_ticket AIConfig.mock "tech1"
        { summary := "fan failed", description := "loud noise", server := "srv-1",
          rack := "2A", priority := "Medium" } "id1" "t1").user_priority.data := by rfl
  exact ⟨hc, (h.2 hc).1⟩

set_option maxRecDepth 100000 in
/-- Counterexample to claim C2: when the advisory capability is unreachable
(the oracle raises, so call_ai returns the empty-object string), the ticket
does get priority_score 5.0 and calculated_priority equal to user_priority,
but validation is the empty JSON object: completeness_score and is_complete
are absent, not 0.7 and true as the claim states. -/
theorem C2_counterexample :
    (create_ticket (AIConfig.remote (fun _ _ => none)) "tech1"
        { summary := "s", description := "d", server := "srv", rack := "r",
          priority := "Medium" } "id1" "t1").validation = Json.obj [] ∧
    ((create_ticket (AIConfig.remote (fun _ _ => none)) "tech1"
        { summary := "s", description := "d", server := "srv", rack := "r",
          priority := "Medium" } "id1" "t1").validation.get "completeness_score".data) = none ∧
    ((create_ticket (AIConfig.remote (fun _ _ => none)) "tech1"
        { summary := "s", description := "d", server := "srv", rack := "r",
          priority := "Medium" } "id1" "t1").validation.get "is_complete".data) = none ∧
    (create_ticket (AIConfig.remote (fun _ _ => none)) "tech1"
        { summary := "s", description := "d", server := "srv", rack := "r",
          priority := "Medium" } "id1" "t1").priority_score = Json.num 5 ∧
    (create_ticket (AIConfig.remote (fun _ _ => none)) "tech1"
        { summary := "s", description := "d", server := "srv", rack := "r",
          priority := "Medium" } "id1" "t1").calculated_priority = Json.str "Medium".data := by
  refine ⟨rfl, rfl, rfl, rfl, rfl⟩

/-- Claim C2 as amended: creation is total (this function never fails), and
when the advisory response contains no JSON object or its brace-extract is
unparsable, the stored judgements are the documented defaults: validation
carries completeness_score 0.7 and is_complete true, the priority judgement
falls back to priority_score 5.0 and calculated_priority equal to the user
priority, leaving a Draft ticket with needs_priority_review unset. (When the
capability is unreachable the source instead substitutes the two-character
empty-object string, which parses, so only the priority/score defaults
apply and validation is the empty object - see the counterexample.) -/
theorem C2_amended_defaults (o : String → String → Option String) (input : TicketInput)
    (username idv ts : String) :
    (extractJson (call_ai (AIConfig.remote o) valSystemPrompt
        (valUserPrompt input.summary input.description input.server input.rack input.priority)) =
          none →
      (create_ticket (AIConfig.remote o) username input idv ts).validation =
          defaultValidationJudgement ∧
        ((create_ticket (AIConfig.remote o) username input idv ts).validation.get
            "completeness_score".data) = some (Json.num (mkRat 7 10)) ∧
        ((create_ticket (AIConfig.remote o) username input idv ts).validation.get
            "is_complete".data) = some (Json.bool true)) ∧
    (extractJson (call_ai (AIConfig.remote o) priSystemPrompt
        (priUserPrompt input.summary input.description input.priority input.rack input.server)) =
          none →
      (create_ticket (AIConfig.remote o) username input idv ts).priority_analysis =
          defaultPriorityJudgement input.priority ∧
        (create_ticket (AIConfig.remote o) username input idv ts).priority_score = Json.num 5 ∧
        (create_ticket (AIConfig.remote o) username input idv ts).calculated_priority =
          Json.str input.priority.data ∧
        (create_ticket (AIConfig.remote o) username input idv ts).status = "Draft" ∧
        (create_ticket (AIConfig.remote o) username input idv ts).needs_priority_review = none) := by
  constructor
  · intro hv
    have h1 : (create_ticket (AIConfig.remote o) username input idv ts).validation =
        defaultValidationJudgement := by
      show judgementOf (call_ai (AIConfig.remote o) valSystemPrompt
          (valUserPrompt input.summary input.description input.server input.rack input.priority))
          defaultValidationJudgement = defaultValidationJudgement
      unfold judgementOf
      rw [hv]
      rfl
    refine ⟨h1, ?_, ?_⟩ <;> rw [h1] <;> rfl
  · intro hp
    have h2 : judgementOf (call_ai (AIConfig.remote o) priSystemPrompt
        (priUserPrompt input.summary input.description input.priority input.rack input.server))
        (defaultPriorityJudgement input.priority) = defaultPriorityJudgement input.priority := by
      unfold judgementOf
      rw [hp]
      rfl
    have hpa : (create_ticket (AIConfig.remote o) username input idv ts).priority_analysis =
        defaultPriorityJudgement input.priority := h2
    have hcalc : (create_ticket (AIConfig.remote o) username input idv ts).calculated_priority =
        Json.str input.priority.data := by
      show ((judgementOf (call_ai (AIConfig.remote o) priSystemPrompt
          (priUserPrompt input.summary input.description input.priority input.rack input.server))
          (defaultPriorityJudgement input.priority)).get "calculated_priority".data).getD
          (Json.str input.priority.data) = Json.str input.priority.data
      rw [h2]
      rfl
    have hscore : (create_ticket (AIConfig.remote o) username input idv ts).priority_score =
        Json.num 5 := by
      show ((judgementOf (call_ai (AIConfig.remote o) priSystemPrompt
          (priUserPrompt input.summary input.description input.priority input.rack input.server))
          (defaultPriorityJudgement input.priority)).get "priority_score".data).getD
          (Json.num 5) = Json.num 5
      rw [h2]
      rfl
    have hrev : pyNeqStr (((judgementOf (call_ai (AIConfig.remote o) priSystemPrompt
        (priUserPrompt input.summary input.description input.priority input.rack input.server))
        (defaultPriorityJudgement input.priority)).get "calculated_priority".data).getD
        (Json.str input.priority.data)) input.priority = false := by
      rw [h2]
      show pyNeqStr (Json.str input.priority.data) input.priority = false
      simp [pyNeqStr]
    have hst : (create_ticket (AIConfig.remote o) username input idv ts).status = "Draft" := by
      show (if pyNeqStr (((judgementOf (call_ai (AIConfig.remote o) priSystemPrompt
          (priUserPrompt input.summary input.description input.priority input.rack input.server))
          (defaultPriorityJudgement input.priority)).get "calculated_priority".data).getD
          (Json.str input.priority.data)) input.priority = true then "AI Review" else "Draft") =
          "Draft"
      rw [hrev]
      simp
    have hnpr : (create_ticket (AIConfig.remote o) username input idv ts).needs_priority_review =
        none := by
      show (if pyNeqStr (((judgementOf (call_ai (AIConfig.remote o) priSystemPrompt
          (priUserPrompt input.summary input.description input.priority input.rack input.server))
          (defaultPriorityJudgement input.priority)).get "calculated_priority".data).getD
          (Json.str input.priority.data)) input.priority = true then some true else none) =
          (none : Option Bool)
      rw [hrev]
      simp
    exact ⟨hpa, hscore, hcalc, hst, hnpr⟩

/-- Witness for the amended C2: an advisory response with no JSON object in
it (extraction fails on both calls) produces exactly the default
judgements. -/
theorem C2_amended_defaults_witness :
    (create_ticket (AIConfig.remote (fun _ _ => some "advisory offline")) "tech1"
        { summary := "s", description := "d", server := "srv", rack := "r",
          priority := "Low" } "id1" "t1").validation = defaultValidationJudgement ∧
    (create_ticket (AIConfig.remote (fun _ _ => some "advisory offline")) "tech1"
        { summary := "s", description := "d", server := "srv", rack := "r",
          priority := "Low" } "id1" "t1").priority_score = Json.num 5 ∧
    (create_ticket (AIConfig.remote (fun _ _ => some "advisory offline")) "tech1"
        { summary := "s", description := "d", server := "srv", rack := "r",
          priority := "Low" } "id1" "t1").status = "Draft" := by
  have h := C2_amended_defaults (fun _ _ => some "advisory offline")
    { summary := "s", description := "d", server := "srv", rack := "r", priority := "Low" }
    "tech1" "id1" "t1"
  exact ⟨(h.1 rfl).1, (h.2 rfl).2.1, (h.2 rfl).2.2.2.1⟩

/-- Counterexample to claim C4: the bulk CSV import path never validates
required fields; a row with no description column (and no summary column)
still creates a ticket - with description defaulted to the empty string -
and both advisory calls are made, so the advisory invocation count is 2,
not 0. -/
theorem C4_csv_counterexample :
    (csvRowInput
        { server := some "srv-1", rack := some "2A", issue := some "GPU overheating",
          summary := none, description := none, priority := some "High" }).description = "" ∧
    (csv_import_row_flow AIConfig.mock "tech1"
        { server := some "srv-1", rack := some "2A", issue := some "GPU overheating",
          summary := none, description := none, priority := some "High" }
        "id1" "t1").advisoryCalls = 2 ∧
    ((csv_import_row_flow AIConfig.mock "tech1"
        { server := some "srv-1", rack := some "2A", issue := some "GPU overheating",
          summary := none, description := none, priority := some "High" }
        "id1" "t1").ticket).isSome = true := by
  refine ⟨rfl, rfl, rfl⟩

/-- Claim C4 as amended: on the manual creation path an empty required field
(summary, description, server or rack) is rejected before any advisory call
- the advisory invocation count is 0 and no ticket is created; the bulk
CSV-import path does not perform this validation (it substitutes defaults
and always creates, see the counterexample). -/
theorem C4_manual_rejects_before_advisory (cfg : AIConfig) (username : String)
    (input : TicketInput) (idv ts : String)
    (h : input.summary = "" ∨ input.description = "" ∨ input.server = "" ∨ input.rack = "") :
    (manual_create_flow cfg username input idv ts).advisoryCalls = 0 ∧
    (manual_create_flow cfg username input idv ts).ticket = none := by
  rcases h with h | h | h | h <;> simp [manual_create_flow, h]

/-- Witness for the amended C4: a request with an empty description is
rejected with zero advisory calls. -/
theorem C4_manual_rejects_before_advisory_witness :
    (manual_create_flow AIConfig.mock "tech1"
        { summary := "fan failed", description := "", server := "srv-1", rack := "2A",
          priority := "Medium" } "id1" "t1").advisoryCalls = 0 ∧
    (manual_create_flow AIConfig.mock "tech1"
        { summary := "fan failed", description := "", server := "srv-1", rack := "2A",
          priority := "Medium" } "id1" "t1").ticket = none :=
  C4_manual_rejects_before_advisory AIConfig.mock "tech1"
    { summary := "fan failed", description := "", server := "srv-1", rack := "2A",
      priority := "Medium" } "id1" "t1" (Or.inr (Or.inl rfl))

/-- Claim C5: over all valid factor-level combinations, the deterministic
priority model combined score (modelled from the spec as the sum of the
PRIORITY_WEIGHTS factor weights, the combination function being left open by
the spec and absent from the source) is monotone non-decreasing when any
single factor is raised to a higher-weight level, the others held fixed. -/
theorem C5_priority_model_monotone :
    (∀ (i i' : ImpactScope) (s : ServiceImpact) (u : Urgency) (f : SafetyLevel),
      i.weight ≤ i'.weight → priorityModelScore i s u f ≤ priorityModelScore i' s u f) ∧
    (∀ (i : ImpactScope) (s s' : ServiceImpact) (u : Urgency) (f : SafetyLevel),
      s.weight ≤ s'.weight → priorityModelScore i s u f ≤ priorityModelScore i s' u f) ∧
    (∀ (i : ImpactScope) (s : ServiceImpact) (u u' : Urgency) (f : SafetyLevel),
      u.weight ≤ u'.weight → priorityModelScore i s u f ≤ priorityModelScore i s u' f) ∧
    (∀ (i : ImpactScope) (s : ServiceImpact) (u : Urgency) (f f' : SafetyLevel),
      f.weight ≤ f'.weight → priorityModelScore i s u f ≤ priorityModelScore i s u f') := by
  refine ⟨?_, ?_, ?_, ?_⟩ <;> intro _ _ _ _ _ h <;> unfold priorityModelScore <;> omega

/-- Witness for C5: raising impact_scope from rack to datacenter with the
other factors fixed does not decrease the score. -/
theorem C5_priority_model_monotone_witness :
    ImpactScope.rackLevel.weight ≤ ImpactScope.datacenter.weight ∧
    priorityModelScore ImpactScope.rackLevel ServiceImpact.degraded Urgency.within24h
        SafetyLevel.minor ≤
      priorityModelScore ImpactScope.datacenter ServiceImpact.degraded Urgency.within24h
        SafetyLevel.minor :=
  ⟨by decide,
    C5_priority_model_monotone.1 ImpactScope.rackLevel ImpactScope.datacenter
      ServiceImpact.degraded Urgency.within24h SafetyLevel.minor (by decide)⟩

/-- Counterexample to claim C6: a persisted priority_score holding a JSON
array (a non-scalar that is not a dict) is not coerced - only dicts are -
so float() raises on the read path (modelled as none) instead of displaying
0; reading persisted data therefore can fail depending on the stored
shape. -/
theorem C6_counterexample :
    readScore [("priority_score".data, Json.arr [])] = none ∧
    readScore [("priority_score".data, Json.null)] = none := by
  exact ⟨rfl, rfl⟩

/-- Claim C6 as amended: the read/display path defensively coerces exactly
dict-shaped values: an object-valued priority_score is displayed as 0
without raising, and an object-valued completeness_score is read as 0.7
(clamped into the unit interval); array, null or non-numeric values still
make the read path raise, as the counterexample shows. -/
theorem C6_dict_coercion (kvs : List (List Char × Json)) :
    (∀ d, lookupKV "priority_score".data kvs = some (Json.obj d) → readScore kvs = some 0) ∧
    (∀ vkvs d, lookupKV "validation".data kvs = some (Json.obj vkvs) →
      lookupKV "completeness_score".data vkvs = some (Json.obj d) →
      readCompleteness kvs = some (mkRat 7 10)) := by
  constructor
  · intro d hd
    unfold readScore
    rw [hd]
    rfl
  · intro vkvs d hv hc
    unfold readCompleteness
    rw [hv]
    simp only [Option.getD_some]
    rw [hc]
    have hclamp : max (0 : Rat) (min 1 (mkRat 7 10)) = mkRat 7 10 := by
      rw [min_eq_right (by norm_num), max_eq_right (by norm_num)]
    simp [pyFloat, hclamp]
    norm_num

/-- Witness for the amended C6: concrete persisted tickets whose
priority_score and completeness_score are JSON objects read as 0 and 0.7. -/
theorem C6_dict_coercion_witness :
    readScore [("priority_score".data, Json.obj [("a".data, Json.num 1)])] = some 0 ∧
    readCompleteness
        [("validation".data,
          Json.obj [("completeness_score".data, Json.obj [])])] = some (mkRat 7 10) := by
  refine ⟨(C6_dict_coercion _).1 _ rfl, (C6_dict_coercion _).2 _ [] rfl rfl⟩

/-- Claim C7: Sync to Jira never changes status. On success only jira_key
(the created issue key) and jira_synced_at change and every other field is
preserved; on any failure (unconfigured, exception from the issue call,
missing or empty key) the function returns false and the ticket is exactly
its prior state. The sync function is total: exceptions from the HTTP layer
are absorbed into the issueKey argument being none, as in the source. -/
theorem C7_sync_frame (configured : Bool) (issueKey : Option String) (t : Ticket)
    (now : String) :
    ((sync_ticket_to_jira configured issueKey t now).2.status = t.status) ∧
    ((sync_ticket_to_jira configured issueKey t now).2.id = t.id) ∧
    ((sync_ticket_to_jira configured issueKey t now).2.created_at = t.created_at) ∧
    ((sync_ticket_to_jira configured issueKey t now).2.created_by = t.created_by) ∧
    ((sync_ticket_to_jira configured issueKey t now).2.user_priority = t.user_priority) ∧
    ((sync_ticket_to_jira configured issueKey t now).2.summary = t.summary) ∧
    ((sync_ticket_to_jira configured issueKey t now).2.description = t.description) ∧
    ((sync_ticket_to_jira configured issueKey t now).2.server = t.server) ∧
    ((sync_ticket_to_jira configured issueKey t now).2.rack = t.rack) ∧
    ((sync_ticket_to_jira configured issueKey t now).2.priority = t.priority) ∧
    ((sync_ticket_to_jira configured issueKey t now).2.validation = t.validation) ∧
    ((sync_ticket_to_jira configured issueKey t now).2.priority_analysis =
      t.priority_analysis) ∧
    ((sync_ticket_to_jira configured issueKey t now).2.calculated_priority =
      t.calculated_priority) ∧
    ((sync_ticket_to_jira configured issueKey t now).2.priority_score = t.priority_score) ∧
    ((sync_ticket_to_jira configured issueKey t now).2.needs_priority_review =
      t.needs_priority_review) ∧
    ((sync_ticket_to_jira configured issueKey t now).2.started_at = t.started_at) ∧
    ((sync_ticket_to_jira configured issueKey t now).2.completed_at = t.completed_at) ∧
    ((sync_ticket_to_jira configured issueKey t now).1 = true →
      ∃ k, issueKey = some k ∧ k ≠ "" ∧
        (sync_ticket_to_jira configured issueKey t now).2.jira_key = some k ∧
        (sync_ticket_to_jira configured issueKey t now).2.jira_synced_at = some now) ∧
    ((sync_ticket_to_jira configured issueKey t now).1 = false →
      (sync_ticket_to_jira configured issueKey t now).2 = t) := by
  unfold sync_ticket_to_jira
  rcases configured with _ | _
  · simp
  · rcases issueKey with _ | k
    · simp
    · by_cases hk : k = ""
      · simp [hk]
      · simp [hk]

/-- Witness for C7: a successful sync on a concrete ticket sets jira_key
while preserving the status. -/
theorem C7_sync_frame_witness :
    (sync_ticket_to_jira true (some "AXIS-1")
        { id := "id1", created_at := "t0", created_by := "tech1", status := "Draft",
          user_priority := "Medium", summary := "s", description := "d", server := "sv",
          rack := "r", priority := "Medium", validation := Json.obj [],
          priority_analysis := Json.obj [], calculated_priority := Json.str "Medium".data,
          priority_score := Json.num 5, needs_priority_review := none, started_at := none,
          completed_at := none, jira_key := none, jira_synced_at := none } "t1").2.status =
      "Draft" ∧
    (sync_ticket_to_jira true (some "AXIS-1")
        { id := "id1", created_at := "t0", created_by := "tech1", status := "Draft",
          user_priority := "Medium", summary := "s", description := "d", server := "sv",
          rack := "r", priority := "Medium", validation := Json.obj [],
          priority_analysis := Json.obj [], calculated_priority := Json.str "Medium".data,
          priority_score := Json.num 5, needs_priority_review := none, started_at := none,
          completed_at := none, jira_key := none, jira_synced_at := none } "t1").1 = true := by
  constructor
  · exact (C7_sync_frame true (some "AXIS-1") _ "t1").1
  · rfl

set_option maxRecDepth 100000 in
/-- Counterexample to claim C8: create_ticket stores the advisory
priority_score verbatim with no clamping, so a remote advisory response of
11 is stored as 11, which is not in the interval [0,10]. -/
theorem C8_counterexample :
    (create_ticket (AIConfig.remote (fun _ _ => some "\x7b\"priority_score\": 11\x7d"))
        "tech1"
        { summary := "s", description := "d", server := "srv", rack := "r",
          priority := "Medium" } "id1" "t1").priority_score = Json.num 11 ∧
    ¬ ((11 : Rat) ≤ 10) := by
  constructor
  · rfl
  · norm_num

/-- Claim C8 as amended: in mock mode (and equally on any unparsable
advisory response, which falls back to 5.0) the stored priority_score is a
number in [0,10] - 8.5 from the priority template or the 5.0 default when
the selected template carries no priority_score key; a parsable remote
response, however, is stored verbatim without clamping (see the
counterexample). -/
theorem create_ticket_priority_score (cfg : AIConfig) (username : String)
    (input : TicketInput) (idv ts : String) :
    (create_ticket cfg username input idv ts).priority_score =
      ((calculate_priority_score cfg input.summary input.description input.priority input.rack
        input.server).get "priority_score".data).getD (Json.num 5) := rfl

theorem C8_mock_score_in_range (input : TicketInput) (username idv ts : String) :
    ∃ q : Rat, (create_ticket AIConfig.mock username input idv ts).priority_score = Json.num q ∧
      0 ≤ q ∧ q ≤ 10 := by
  have hscore := create_ticket_priority_score AIConfig.mock username input idv ts
  unfold calculate_priority_score at hscore
  by_cases h1 : containsSub "calculate priority score".data
      (lowerData (priUserPrompt input.summary input.description input.priority input.rack
        input.server)) = true
  · refine ⟨mkRat 85 10, ?_, by norm_num [Rat.mkRat_eq_div], by norm_num [Rat.mkRat_eq_div]⟩
    rw [hscore]
    have hca : call_ai AIConfig.mock priSystemPrompt
        (priUserPrompt input.summary input.description input.priority input.rack input.server) =
        mockPriorityResponse := by
      simp only [call_ai]
      rw [if_pos h1]
    rw [hca]
    unfold judgementOf
    rw [extract_mockPriority]
    rfl
  · by_cases h2 : (containsSub "validate".data
        (lowerData (priUserPrompt input.summary input.description input.priority input.rack
          input.server))
        || containsSub "complete".data
          (lowerData (priUserPrompt input.summary input.description input.priority input.rack
            input.server))) = true
    · refine ⟨5, ?_, by norm_num, by norm_num⟩
      rw [hscore]
      have hca : call_ai AIConfig.mock priSystemPrompt
          (priUserPrompt input.summary input.description input.priority input.rack input.server) =
          mockValidationResponse := by
        simp only [call_ai]
        rw [if_neg h1, if_pos h2]
      rw [hca]
      unfold judgementOf
      rw [extract_mockValidation]
      rfl
    · refine ⟨5, ?_, by norm_num, by norm_num⟩
      rw [hscore]
      have hca : call_ai AIConfig.mock priSystemPrompt
          (priUserPrompt input.summary input.description input.priority input.rack input.server) =
          mockGenericResponse := by
        simp only [call_ai]
        rw [if_neg h1, if_neg h2]
      rw [hca]
      unfold judgementOf
      rw [extract_mockGeneric]
      rfl

set_option maxRecDepth 100000 in
/-- Witness for the amended C8: a concrete mock-mode creation stores a score
in range. -/
theorem C8_mock_score_in_range_witness :
    ∃ q : Rat, (create_ticket AIConfig.mock "tech1"
        { summary := "fan failed", description := "loud noise", server := "srv-1",
          rack := "2A", priority := "Medium" } "id1" "t1").priority_score = Json.num q ∧
      0 ≤ q ∧ q ≤ 10 :=
  C8_mock_score_in_range
    { summary := "fan failed", description := "loud noise", server := "srv-1",
      rack := "2A", priority := "Medium" } "tech1" "id1" "t1"

/-- Membership is preserved downward through the ite/filter steps of the
Tickets tab. -/
theorem mem_of_ite_filter {c : Prop} [Decidable c] (p : Ticket → Bool) (l : List Ticket)
    (t : Ticket) (h : t ∈ if c then l else l.filter p) : t ∈ l := by
  split at h
  · exact h
  · exact List.mem_of_mem_filter h

/-- Every ticket shown by the Tickets tab comes from the underlying
collection. -/
theorem mem_listTickets (l : List Ticket) (sf pf sk : String) (t : Ticket)
    (h : t ∈ listTickets l sf pf sk) : t ∈ l := by
  simp only [listTickets] at h
  split at h
  · rw [mem_sortTickets] at h
    exact mem_of_ite_filter _ _ _ (mem_of_ite_filter _ _ _ h)
  · split at h
    · rw [mem_sortTickets] at h
      exact mem_of_ite_filter _ _ _ (mem_of_ite_filter _ _ _ h)
    · split at h
      · rw [mem_sortTickets] at h
        exact mem_of_ite_filter _ _ _ (mem_of_ite_filter _ _ _ h)
      · rw [mem_sortTickets] at h
        exact mem_of_ite_filter _ _ _ (mem_of_ite_filter _ _ _ h)

/-- Claim C9: Delete removes exactly the tickets carrying the given id: the
result contains no ticket with that id, retains every other ticket (it is a
sublist, with the count of other tickets unchanged), and the deleted id
appears in no subsequent listTickets result whatever the filters and sort
order. -/
theorem C9_delete_removes (tickets : List Ticket) (tid : String) (sf pf sk : String) :
    (∀ t ∈ deleteTicket tickets tid, t.id ≠ tid) ∧
    (∀ t ∈ tickets, t.id ≠ tid → t ∈ deleteTicket tickets tid) ∧
    (deleteTicket tickets tid).Sublist tickets ∧
    ((deleteTicket tickets tid).countP (fun t => decide (t.id = tid)) = 0) ∧
    ((deleteTicket tickets tid).countP (fun t => decide (t.id ≠ tid)) =
      tickets.countP (fun t => decide (t.id ≠ tid))) ∧
    (∀ t ∈ listTickets (deleteTicket tickets tid) sf pf sk, t.id ≠ tid) := by
  refine ⟨?_, ?_, ?_, ?_, ?_, ?_⟩
  · intro t ht
    have := List.mem_filter.mp ht
    simpa using this.2
  · intro t ht hne
    exact List.mem_filter.mpr ⟨ht, by simpa using hne⟩
  · exact List.filter_sublist _
  · rw [List.countP_eq_zero]
    intro t ht
    have := List.mem_filter.mp ht
    simpa using this.2
  · unfold deleteTicket
    rw [List.countP_filter]
    simp
  · intro t ht
    have hmem := mem_listTickets _ sf pf sk t ht
    have := List.mem_filter.mp hmem
    simpa using this.2

/-- Witness for C9: deleting id2 from a concrete two-ticket collection
leaves exactly the other ticket, and no listing shows id2. -/
theorem C9_delete_removes_witness :
    (∀ t ∈ deleteTicket
        [{ id := "id1", created_at := "t0", created_by := "u", status := "Draft",
           user_priority := "Low", summary := "a", description := "b", server := "s",
           rack := "r", priority := "Low", validation := Json.obj [],
           priority_analysis := Json.obj [], calculated_priority := Json.str "Low".data,
           priority_score := Json.num 5, needs_priority_review := none, started_at := none,
           completed_at := none, jira_key := none, jira_synced_at := none },
         { id := "id2", created_at := "t1", created_by := "u", status := "Draft",
           user_priority := "Low", summary := "c", description := "d", server := "s",
           rack := "r", priority := "Low", validation := Json.obj [],
           priority_analysis := Json.obj [], calculated_priority := Json.str "Low".data,
           priority_score := Json.num 5, needs_priority_review := none, started_at := none,
           completed_at := none, jira_key := none, jira_synced_at := none }] "id2",
      t.id ≠ "id2") ∧
    (deleteTicket
        [{ id := "id1", created_at := "t0", created_by := "u", status := "Draft",
           user_priority := "Low", summary := "a", description := "b", server := "s",
           rack := "r", priority := "Low", validation := Json.obj [],
           priority_analysis := Json.obj [], calculated_priority := Json.str "Low".data,
           priority_score := Json.num 5, needs_priority_review := none, started_at := none,
           completed_at := none, jira_key := none, jira_synced_at := none },
         { id := "id2", created_at := "t1", created_by := "u", status := "Draft",
           user_priority := "Low", summary := "c", description := "d", server := "s",
           rack := "r", priority := "Low", validation := Json.obj [],
           priority_analysis := Json.obj [], calculated_priority := Json.str "Low".data,
           priority_score := Json.num 5, needs_priority_review := none, started_at := none,
           completed_at := none, jira_key := none, jira_synced_at := none }] "id2").length =
      1 := by
  constructor
  · exact (C9_delete_removes _ "id2" "All" "All" "Status").1
  · rfl

set_option maxRecDepth 4000 in
/-- Claim C3: the Approve button is applied exactly from Draft or AI Review
and yields Approved while clearing needs_priority_review; Start exactly from
Approved, setting started_at; Complete exactly from In Progress, setting
completed_at. Every applied transition advances the status rank by exactly
one (monotone, no skipped steps), and a full lifecycle run sets started_at
then completed_at with completed_at later than started_at whenever the two
click instants are ordered (ISO-8601 strings compare chronologically). -/
theorem C3_lifecycle_transitions :
    (∀ (t : Ticket) (now : String) (t' : Ticket),
      applyAction t TicketAction.approve now = some t' ↔
        ((t.status = "Draft" ∨ t.status = "AI Review") ∧
          t' = { t with status := "Approved", needs_priority_review := some false })) ∧
    (∀ (t : Ticket) (now : String) (t' : Ticket),
      applyAction t TicketAction.start now = some t' ↔
        (t.status = "Approved" ∧
          t' = { t with status := "In Progress", started_at := some now })) ∧
    (∀ (t : Ticket) (now : String) (t' : Ticket),
      applyAction t TicketAction.complete now = some t' ↔
        (t.status = "In Progress" ∧
          t' = { t with status := "Completed", completed_at := some now })) ∧
    (∀ (t : Ticket) (a : TicketAction) (now : String) (t' : Ticket),
      applyAction t a now = some t' → statusRank t'.status = statusRank t.status + 1) ∧
    (∀ (t : Ticket) (na n1 n2 : String),
      (t.status = "Draft" ∨ t.status = "AI Review") → n1 < n2 →
      ∃ t3, (((applyAction t TicketAction.approve na).bind
            (fun u => applyAction u TicketAction.start n1)).bind
            (fun u => applyAction u TicketAction.complete n2)) = some t3 ∧
        t3.status = "Completed" ∧ t3.needs_priority_review = some false ∧
        t3.started_at = some n1 ∧ t3.completed_at = some n2 ∧
        ∃ s c, t3.started_at = some s ∧ t3.completed_at = some c ∧ s < c) := by
  have happrove : ∀ (t : Ticket) (now : String) (t' : Ticket),
      applyAction t TicketAction.approve now = some t' ↔
        ((t.status = "Draft" ∨ t.status = "AI Review") ∧
          t' = { t with status := "Approved", needs_priority_review := some false }) := by
    intro t now t'
    unfold applyAction
    by_cases h : (t.status = "Draft" || t.status = "AI Review") = true
    · have hp : t.status = "Draft" ∨ t.status = "AI Review" := by simpa using h
      rw [if_pos h]
      simp only [Option.some.injEq]
      constructor
      · intro he
        exact ⟨hp, he.symm⟩
      · intro he
        exact he.2.symm
    · have hp : ¬(t.status = "Draft" ∨ t.status = "AI Review") := by simpa using h
      rw [if_neg h]
      simp [hp]
  have hstart : ∀ (t : Ticket) (now : String) (t' : Ticket),
      applyAction t TicketAction.start now = some t' ↔
        (t.status = "Approved" ∧
          t' = { t with status := "In Progress", started_at := some now }) := by
    intro t now t'
    unfold applyAction
    by_cases h : t.status = "Approved"
    · simp [h, eq_comm]
    · simp [h]
  have hcomplete : ∀ (t : Ticket) (now : String) (t' : Ticket),
      applyAction t TicketAction.complete now = some t' ↔
        (t.status = "In Progress" ∧
          t' = { t with status := "Completed", completed_at := some now }) := by
    intro t now t'
    unfold applyAction
    by_cases h : t.status = "In Progress"
    · simp [h, eq_comm]
    · simp [h]
  refine ⟨happrove, hstart, hcomplete, ?_, ?_⟩
  · intro t a now t' h
    cases a
    · obtain ⟨hp, ht'⟩ := (happrove t now t').mp h
      subst ht'
      rcases hp with hs | hs <;> simp [statusRank, hs]
    · obtain ⟨hp, ht'⟩ := (hstart t now t').mp h
      subst ht'
      simp [statusRank, hp]
    · obtain ⟨hp, ht'⟩ := (hcomplete t now t').mp h
      subst ht'
      simp [statusRank, hp]
  · intro t na n1 n2 hst hlt
    refine ⟨{ t with
                status := "Completed", needs_priority_review := some false,
                started_at := some n1, completed_at := some n2 },
      ?_, rfl, rfl, rfl, rfl, n1, n2, rfl, rfl, hlt⟩
    have h1 : applyAction t TicketAction.approve na =
        some { t with status := "Approved", needs_priority_review := some false } := by
      rcases hst with h | h <;> simp [applyAction, h]
    rw [h1]
    rfl

/-- Witness for C3: the full lifecycle on a concrete Draft ticket with
ordered timestamps reaches Completed. -/
theorem C3_lifecycle_transitions_witness :
    ∃ t3, (((applyAction
        { id := "id1", created_at := "t0", created_by := "tech1", status := "Draft",
          user_priority := "Medium", summary := "s", description := "d", server := "sv",
          rack := "r", priority := "Medium", validation := Json.obj [],
          priority_analysis := Json.obj [], calculated_priority := Json.str "Medium".data,
          priority_score := Json.num 5, needs_priority_review := none, started_at := none,
          completed_at := none, jira_key := none, jira_synced_at := none }
        TicketAction.approve "2025-01-01T10:00:00+00:00").bind
        (fun u => applyAction u TicketAction.start "2025-01-01T11:00:00+00:00")).bind
        (fun u => applyAction u TicketAction.complete "2025-01-01T12:00:00+00:00")) =
      some t3 ∧ t3.status = "Completed" ∧ t3.started_at = some "2025-01-01T11:00:00+00:00" ∧
      t3.completed_at = some "2025-01-01T12:00:00+00:00" := by
  obtain ⟨t3, hchain, hs, _, hstart, hcomp, _⟩ :=
    C3_lifecycle_transitions.2.2.2.2
      { id := "id1", created_at := "t0", created_by := "tech1", status := "Draft",
        user_priority := "Medium", summary := "s", description := "d", server := "sv",
        rack := "r", priority := "Medium", validation := Json.obj [],
        priority_analysis := Json.obj [], calculated_priority := Json.str "Medium".data,
        priority_score := Json.num 5, needs_priority_review := none, started_at := none,
        completed_at := none, jira_key := none, jira_synced_at := none }
      "2025-01-01T10:00:00+00:00" "2025-01-01T11:00:00+00:00" "2025-01-01T12:00:00+00:00"
      (Or.inl rfl) (by rw [String.lt_iff_toList_lt]; decide)
  exact ⟨t3, hchain, hs, hstart, hcomp⟩

/-! ## Substring decomposition machinery for the mock-routing claim -/

theorem containsSub_of_pre (n h : List Char) (hp : n <+: h) : containsSub n h = true := by
  cases h with
  | nil =>
    have hn : n = [] := List.prefix_nil.mp hp
    subst hn
    rfl
  | cons c t =>
    unfold containsSub
    rw [ List.isPrefixOf_iff_prefix.mpr hp]
    simp

theorem containsSub_cons_of (n : List Char) (c : Char) (t : List Char)
    (h : containsSub n t = true) : containsSub n (c :: t) = true := by
  unfold containsSub
  rw [h]
  simp

theorem pre_append_left (n a b : List Char) (hlen : n.length ≤ a.length)
    (h : n <+: a ++ b) : n <+: a := by
  have h1 : n = (a ++ b).take n.length := List.prefix_iff_eq_take.mp h
  rw [List.take_append_of_le_length hlen] at h1
  rw [h1]
  exact List.take_prefix _ _

theorem pre_append_take_eq (p a X : List Char) (h : p <+: a ++ X) :
    p.take (min p.length a.length) = a.take (min p.length a.length) := by
  obtain ⟨r, hr⟩ := h
  calc p.take (min p.length a.length)
      = (p ++ r).take (min p.length a.length) :=
        (List.take_append_of_le_length (min_le_left _ _)).symm
    _ = (a ++ X).take (min p.length a.length) := by rw [hr]
    _ = a.take (min p.length a.length) := List.take_append_of_le_length (min_le_right _ _)

theorem pre_append_split (n a b : List Char) (hlen : a.length < n.length)
    (h : n <+: a ++ b) : (n.take a.length) <:+ a ∧ (n.drop a.length) <+: b := by
  have h2 : n.take a.length = a := by
    have := pre_append_take_eq n a b h
    rwa [min_eq_right (le_of_lt hlen), List.take_length] at this
  constructor
  · rw [h2]
  · obtain ⟨r, hr⟩ := h
    have hn : n.take a.length ++ n.drop a.length = n := List.take_append_drop _ _
    rw [← hn, h2, List.append_assoc] at hr
    exact ⟨r, List.append_cancel_left hr⟩

theorem containsSub_append_split (n a b : List Char) (h : containsSub n (a ++ b) = true) :
    containsSub n a = true ∨ containsSub n b = true ∨
      ∃ k, 0 < k ∧ k < n.length ∧ (n.take k) <:+ a ∧ (n.drop k) <+: b := by
  induction a with
  | nil => simpa using Or.inr (Or.inl h)
  | cons x a' ih =>
    rw [List.cons_append] at h
    unfold containsSub at h
    cases (Bool.or_eq_true _ _).mp h with
    | inl hpre =>
      have hp : n <+: (x :: a') ++ b := by
        rw [List.cons_append]
        exact List.isPrefixOf_iff_prefix.mp hpre
      by_cases hlen : n.length ≤ (x :: a').length
      · left
        exact containsSub_of_pre _ _ (pre_append_left n (x :: a') b hlen hp)
      · push_neg at hlen
        obtain ⟨hsuf, hpre2⟩ := pre_append_split n (x :: a') b hlen hp
        right; right
        exact ⟨(x :: a').length, by simp, hlen, hsuf, hpre2⟩
    | inr hrest =>
      rcases ih hrest with hc | hc | ⟨k, hk0, hkn, hs, hp2⟩
      · left
        exact containsSub_cons_of _ _ _ hc
      · right; left
        exact hc
      · right; right
        exact ⟨k, hk0, hkn, hs.trans (List.suffix_cons x a'), hp2⟩

theorem containsSub_append_false (n a b : List Char)
    (ha : containsSub n a = false) (hb : containsSub n b = false)
    (hc : ∀ k, 0 < k → k < n.length → ¬((n.take k) <:+ a ∧ (n.drop k) <+: b)) :
    containsSub n (a ++ b) = false := by
  by_contra h
  rw [Bool.not_eq_false] at h
  rcases containsSub_append_split n a b h with h1 | h1 | ⟨k, hk0, hkn, hs, hp⟩
  · simp [ha] at h1
  · simp [hb] at h1
  · exact hc k hk0 hkn ⟨hs, hp⟩


theorem noTakeSuffix_spec (n a : List Char) (h : noTakeSuffix n a = true) :
    ∀ k, 0 < k → k < n.length → ¬ (n.take k) <:+ a := by
  intro k hk0 hkn hsuf
  have hall := List.all_eq_true.mp h k (List.mem_range.mpr hkn)
  rw [List.isSuffixOf_iff_suffix.mpr hsuf] at hall
  simp [Nat.pos_iff_ne_zero.mp hk0] at hall


theorem noDropPre_spec (n b : List Char) (h : noDropPre n b = true) :
    ∀ k, 0 < k → k < n.length → ¬ (n.drop k) <+: b := by
  intro k hk0 hkn hpre
  have hall := List.all_eq_true.mp h k (List.mem_range.mpr hkn)
  rw [ List.isPrefixOf_iff_prefix.mpr hpre] at hall
  simp [Nat.pos_iff_ne_zero.mp hk0] at hall


theorem noDropMatch_spec (n c X : List Char) (h : noDropMatch n c = true) :
    ∀ k, 0 < k → k < n.length → ¬ (n.drop k) <+: c ++ X := by
  intro k hk0 hkn hpre
  have heq := pre_append_take_eq (n.drop k) c X hpre
  rw [List.length_drop] at heq
  have hall := List.all_eq_true.mp h k (List.mem_range.mpr hkn)
  simp [Nat.pos_iff_ne_zero.mp hk0] at hall
  exact hall heq

theorem chainConcreteLeft (n a b : List Char) (ha : containsSub n a = false)
    (hna : noTakeSuffix n a = true) (hb : containsSub n b = false) :
    containsSub n (a ++ b) = false :=
  containsSub_append_false n a b ha hb
    (fun k hk0 hkn hand => noTakeSuffix_spec n a hna k hk0 hkn hand.1)

theorem chainVarLeft (n S c X : List Char) (hS : containsSub n S = false)
    (hm : noDropMatch n c = true) (hb : containsSub n (c ++ X) = false) :
    containsSub n (S ++ (c ++ X)) = false :=
  containsSub_append_false n S (c ++ X) hS hb
    (fun k hk0 hkn hand => noDropMatch_spec n c X hm k hk0 hkn hand.2)

theorem chainVarLast (n V f : List Char) (hV : containsSub n V = false)
    (hp : noDropPre n f = true) (hf : containsSub n f = false) :
    containsSub n (V ++ f) = false :=
  containsSub_append_false n V f hV hf
    (fun k hk0 hkn hand => noDropPre_spec n f hp k hk0 hkn hand.2)


theorem lower_priUserPrompt (s d up r sv : String) :
    lowerData (priUserPrompt s d up r sv) =
      c10f0 ++ (lowerData s ++ (c10f1 ++ (lowerData d ++ (c10f2 ++ (lowerData up ++
        (c10f3 ++ (lowerData r ++ (c10f4 ++ (lowerData sv ++ c10f5))))))))) := by
  simp only [priUserPrompt, lowerData, c10f0, c10f1, c10f2, c10f3, c10f4, c10f5,
    String.data_append, List.map_append, List.append_assoc]

theorem priPrompt_noPhrase (n : List Char) (s d up r sv : String)
    (h0 : containsSub n c10f0 = false) (h0s : noTakeSuffix n c10f0 = true)
    (hS : containsSub n (lowerData s) = false)
    (h1m : noDropMatch n c10f1 = true)
    (h1 : containsSub n c10f1 = false) (h1s : noTakeSuffix n c10f1 = true)
    (hD : containsSub n (lowerData d) = false)
    (h2m : noDropMatch n c10f2 = true)
    (h2 : containsSub n c10f2 = false) (h2s : noTakeSuffix n c10f2 = true)
    (hU : containsSub n (lowerData up) = false)
    (h3m : noDropMatch n c10f3 = true)
    (h3 : containsSub n c10f3 = false) (h3s : noTakeSuffix n c10f3 = true)
    (hR : containsSub n (lowerData r) = false)
    (h4m : noDropMatch n c10f4 = true)
    (h4 : containsSub n c10f4 = false) (h4s : noTakeSuffix n c10f4 = true)
    (hV : containsSub n (lowerData sv) = false)
    (h5p : noDropPre n c10f5 = true)
    (h5 : containsSub n c10f5 = false) :
    containsSub n (lowerData (priUserPrompt s d up r sv)) = false := by
  rw [lower_priUserPrompt]
  have t10 := chainVarLast n (lowerData sv) c10f5 hV h5p h5
  have t9 := chainConcreteLeft n c10f4 (lowerData sv ++ c10f5) h4 h4s t10
  have t8 := chainVarLeft n (lowerData r) c10f4 (lowerData sv ++ c10f5) hR h4m t9
  have t7 := chainConcreteLeft n c10f3 _ h3 h3s t8
  have t6 := chainVarLeft n (lowerData up) c10f3 _ hU h3m t7
  have t5 := chainConcreteLeft n c10f2 _ h2 h2s t6
  have t4 := chainVarLeft n (lowerData d) c10f2 _ hD h2m t5
  have t3 := chainConcreteLeft n c10f1 _ h1 h1s t4
  have t2 := chainVarLeft n (lowerData s) c10f1 _ hS h1m t3
  exact chainConcreteLeft n c10f0 _ h0 h0s t2

theorem create_ticket_calculated (cfg : AIConfig) (username : String) (input : TicketInput)
    (idv ts : String) :
    (create_ticket cfg username input idv ts).calculated_priority =
      ((calculate_priority_score cfg input.summary input.description input.priority input.rack
        input.server).get "calculated_priority".data).getD (Json.str input.priority.data) := rfl

theorem create_ticket_status (cfg : AIConfig) (username : String) (input : TicketInput)
    (idv ts : String) :
    (create_ticket cfg username input idv ts).status =
      (if pyNeqStr (((calculate_priority_score cfg input.summary input.description input.priority
          input.rack input.server).get "calculated_priority".data).getD
          (Json.str input.priority.data)) input.priority = true
        then "AI Review" else "Draft") := rfl

theorem create_ticket_review (cfg : AIConfig) (username : String) (input : TicketInput)
    (idv ts : String) :
    (create_ticket cfg username input idv ts).needs_priority_review =
      (if pyNeqStr (((calculate_priority_score cfg input.summary input.description input.priority
          input.rack input.server).get "calculated_priority".data).getD
          (Json.str input.priority.data)) input.priority = true
        then some true else none) := rfl

/-- Claim C10: in mock mode, when none of the sniffed keyword phrases
("calculate priority score", "validate", "complete") occurs in the
lower-cased free-text fields (summary, description, rack, server) and the
declared priority is one of the four categorical levels, the
priority-judgement prompt built by the engine contains none of the phrases
either - every phrase is newline- and slash-free while each variable field
is bracketed by newline or slash segments, so no occurrence can straddle a
boundary - hence call_ai falls through to the generic template, which
carries no calculated_priority or priority_score key: the created ticket has
calculated_priority equal to user_priority, priority_score 5.0, status
Draft, and needs_priority_review never set. The mock priority template
(High, 8.5) is unreachable from this creation path. -/
theorem C10_mock_priority_template_unreachable (input : TicketInput)
    (username idv ts : String)
    (hup : input.priority ∈ ["Low", "Medium", "High", "Critical"])
    (hfields : ∀ ph ∈ ["calculate priority score".data, "validate".data, "complete".data],
      ∀ fld ∈ [input.summary, input.description, input.rack, input.server],
      containsSub ph (lowerData fld) = false) :
    call_ai AIConfig.mock priSystemPrompt (priUserPrompt input.summary input.description
        input.priority input.rack input.server) = mockGenericResponse ∧
    (create_ticket AIConfig.mock username input idv ts).calculated_priority =
      Json.str input.priority.data ∧
    (create_ticket AIConfig.mock username input idv ts).priority_score = Json.num 5 ∧
    (create_ticket AIConfig.mock username input idv ts).status = "Draft" ∧
    (create_ticket AIConfig.mock username input idv ts).needs_priority_review = none := by
  have hph1 : "calculate priority score".data ∈
      ["calculate priority score".data, "validate".data, "complete".data] := by simp
  have hph2 : "validate".data ∈
      ["calculate priority score".data, "validate".data, "complete".data] := by simp
  have hph3 : "complete".data ∈
      ["calculate priority score".data, "validate".data, "complete".data] := by simp
  have hupcase : ∀ ph ∈ ["calculate priority score".data, "validate".data, "complete".data],
      containsSub ph (lowerData input.priority) = false := by
    intro ph hph
    rcases List.mem_cons.mp hup with h | h
    · rw [h]
      rcases List.mem_cons.mp hph with h1 | h1
      · rw [h1]; decide
      rcases List.mem_cons.mp h1 with h2 | h2
      · rw [h2]; decide
      rcases List.mem_cons.mp h2 with h3 | h3
      · rw [h3]; decide
      · simp at h3
    rcases List.mem_cons.mp h with h | h
    · rw [h]
      rcases List.mem_cons.mp hph with h1 | h1
      · rw [h1]; decide
      rcases List.mem_cons.mp h1 with h2 | h2
      · rw [h2]; decide
      rcases List.mem_cons.mp h2 with h3 | h3
      · rw [h3]; decide
      · simp at h3
    rcases List.mem_cons.mp h with h | h
    · rw [h]
      rcases List.mem_cons.mp hph with h1 | h1
      · rw [h1]; decide
      rcases List.mem_cons.mp h1 with h2 | h2
      · rw [h2]; decide
      rcases List.mem_cons.mp h2 with h3 | h3
      · rw [h3]; decide
      · simp at h3
    rcases List.mem_cons.mp h with h | h
    · rw [h]
      rcases List.mem_cons.mp hph with h1 | h1
      · rw [h1]; decide
      rcases List.mem_cons.mp h1 with h2 | h2
      · rw [h2]; decide
      rcases List.mem_cons.mp h2 with h3 | h3
      · rw [h3]; decide
      · simp at h3
    · simp at h
  have hfld1 : input.summary ∈ [input.summary, input.description, input.rack, input.server] := by
    simp
  have hfld2 : input.description ∈
      [input.summary, input.description, input.rack, input.server] := by simp
  have hfld3 : input.rack ∈ [input.summary, input.description, input.rack, input.server] := by
    simp
  have hfld4 : input.server ∈ [input.summary, input.description, input.rack, input.server] := by
    simp
  have hp1 : containsSub "calculate priority score".data
      (lowerData (priUserPrompt input.summary input.description input.priority input.rack
        input.server)) = false :=
    priPrompt_noPhrase _ _ _ _ _ _ (by decide) (by decide)
      (hfields _ hph1 _ hfld1) (by decide) (by decide) (by decide)
      (hfields _ hph1 _ hfld2) (by decide) (by decide) (by decide)
      (hupcase _ hph1) (by decide) (by decide) (by decide)
      (hfields _ hph1 _ hfld3) (by decide) (by decide) (by decide)
      (hfields _ hph1 _ hfld4) (by decide) (by decide)
  have hp2 : containsSub "validate".data
      (lowerData (priUserPrompt input.summary input.description input.priority input.rack
        input.server)) = false :=
    priPrompt_noPhrase _ _ _ _ _ _ (by decide) (by decide)
      (hfields _ hph2 _ hfld1) (by decide) (by decide) (by decide)
      (hfields _ hph2 _ hfld2) (by decide) (by decide) (by decide)
      (hupcase _ hph2) (by decide) (by decide) (by decide)
      (hfields _ hph2 _ hfld3) (by decide) (by decide) (by decide)
      (hfields _ hph2 _ hfld4) (by decide) (by decide)
  have hp3 : containsSub "complete".data
      (lowerData (priUserPrompt input.summary input.description input.priority input.rack
        input.server)) = false :=
    priPrompt_noPhrase _ _ _ _ _ _ (by decide) (by decide)
      (hfields _ hph3 _ hfld1) (by decide) (by decide) (by decide)
      (hfields _ hph3 _ hfld2) (by decide) (by decide) (by decide)
      (hupcase _ hph3) (by decide) (by decide) (by decide)
      (hfields _ hph3 _ hfld3) (by decide) (by decide) (by decide)
      (hfields _ hph3 _ hfld4) (by decide) (by decide)
  have hroute : call_ai AIConfig.mock priSystemPrompt (priUserPrompt input.summary
      input.description input.priority input.rack input.server) = mockGenericResponse := by
    simp only [call_ai]
    rw [if_neg (by simp [hp1]), if_neg (by simp [hp2, hp3])]
  have hpa : calculate_priority_score AIConfig.mock input.summary input.description
      input.priority input.rack input.server = mockGenericJson := by
    unfold calculate_priority_score
    rw [hroute]
    unfold judgementOf
    rw [extract_mockGeneric]
    rfl
  have hrev : pyNeqStr (((calculate_priority_score AIConfig.mock input.summary input.description
      input.priority input.rack input.server).get "calculated_priority".data).getD
      (Json.str input.priority.data)) input.priority = false := by
    rw [hpa]
    show pyNeqStr (Json.str input.priority.data) input.priority = false
    simp [pyNeqStr]
  refine ⟨hroute, ?_, ?_, ?_, ?_⟩
  · rw [create_ticket_calculated, hpa]
    rfl
  · rw [create_ticket_priority_score, hpa]
    rfl
  · rw [create_ticket_status, hrev]
    simp
  · rw [create_ticket_review, hrev]
    simp

set_option maxRecDepth 100000 in
/-- Witness for C10: a concrete mock-mode creation with clean free text and
priority High stays a Draft with the user priority and score 5.0. -/
theorem C10_mock_priority_template_unreachable_witness :
    (create_ticket AIConfig.mock "tech1"
        { summary := "GPU fan failure", description := "thermal alerts on node 3",
          server := "srv-gpu-301", rack := "3B-04", priority := "High" } "id1"
        "t1").calculated_priority = Json.str "High".data ∧
    (create_ticket AIConfig.mock "tech1"
        { summary := "GPU fan failure", description := "thermal alerts on node 3",
          server := "srv-gpu-301", rack := "3B-04", priority := "High" } "id1"
        "t1").priority_score = Json.num 5 ∧
    (create_ticket AIConfig.mock "tech1"
        { summary := "GPU fan failure", description := "thermal alerts on node 3",
          server := "srv-gpu-301", rack := "3B-04", priority := "High" } "id1"
        "t1").status = "Draft" := by
  have h := C10_mock_priority_template_unreachable
    { summary := "GPU fan failure", description := "thermal alerts on node 3",
      server := "srv-gpu-301", rack := "3B-04", priority := "High" } "tech1" "id1" "t1"
    (by simp) (by decide)
  exact ⟨h.2.1, h.2.2.1, h.2.2.2.1⟩
